import Mathlib

/-!
Shallow embedding of the resume_analyzer repository and verification of its
specification claims.

Source files embedded:
- src/lib/text_processor.py   (TextProcessor)
- src/utils/prompt_loader.py  (PromptLoader)
- src/utils/config.py         (Config)
- src/lib/groq_handler.py     (GroqHandler)
- src/lib/resume_analyzer.py  (ResumeAnalyzer)
- src/main/app.py             (main request handler)

Python exceptions are modelled by `Except PyErr`; the external world (files on
disk, the Groq chat-completion transport) is passed in explicitly.  Side
effects that the claims talk about (closing a PDF document, attempting a file
open, the temp file on disk, transport invocations) are recorded in result
structures.
-/

namespace ResumeAnalyzerSpec

/-- Error taxonomy of the repository, following section 7 of the spec.
`fileAccess` stands for FileNotFoundError raised while opening a document,
`parseError` for a parsing failure inside a document library,
`templateNotFound` for the KeyError from `self.prompts[prompt_key]`,
`substitutionError` for the KeyError from `str.format` on a missing
placeholder, `configError` for the ValueError raised by `Config.validate`
and for a missing prompts file, `indexError` for `response.choices[0]` on an
empty choice list, and `inferenceError` for a transport failure. -/
inductive PyErr where
  | fileAccess
  | parseError
  | templateNotFound
  | substitutionError
  | configError
  | indexError
  | inferenceError
deriving DecidableEq, Repr

/-- A document on disk, as the two parsing libraries present it.
A PDF is a sequence of pages; reading the text of a page (`page.get_text`)
may itself raise, which is modelled by `none` in that position.
A DOCX is a sequence of paragraph texts. -/
inductive Doc where
  | pdf (pages : List (Option String))
  | docx (paras : List String)
deriving DecidableEq

/-- The local file system: a path either holds a document or nothing
(opening a missing path raises). -/
def FileSystem : Type := String → Option Doc

/-- Reading every page text in page order, as the list comprehension
`[page.get_text("text") for page in doc]` does: the first page whose read
raises aborts the whole comprehension. -/
def readPages : List (Option String) → Option (List String)
  | [] => some []
  | none :: _ => none
  | some t :: rest => (readPages rest).map (fun ts => t :: ts)

deriving instance DecidableEq for Except

/-- Outcome of `TextProcessor.extract_text_from_pdf`, recording whether
`doc.close()` was executed. -/
structure PdfResult where
  result : Except PyErr String
  closed : Bool
deriving DecidableEq

namespace TextProcessor

/-- Embedding of `TextProcessor.extract_text_from_pdf` (text_processor.py).
`fitz.open` fails on a missing path and on a non-PDF document; after the
open, each page text is read in order and the results are joined with
newlines; `doc.close()` is the next statement after the join, so it runs
only when every page read returned normally. -/
def extract_text_from_pdf (fs : FileSystem) (pdf_path : String) : PdfResult :=
  match fs pdf_path with
  | some (Doc.pdf pages) =>
    match readPages pages with
    | some texts => ⟨Except.ok (String.intercalate "\n" texts), true⟩
    | none => ⟨Except.error PyErr.parseError, false⟩
  | some (Doc.docx _) => ⟨Except.error PyErr.parseError, false⟩
  | none => ⟨Except.error PyErr.fileAccess, false⟩

/-- Embedding of `TextProcessor.extract_text_from_docx` (text_processor.py):
open the document with `Document(docx_path)` and join every paragraph text
with newlines. -/
def extract_text_from_docx (fs : FileSystem) (docx_path : String) : Except PyErr String :=
  match fs docx_path with
  | some (Doc.docx paras) => Except.ok (String.intercalate "\n" paras)
  | some (Doc.pdf _) => Except.error PyErr.parseError
  | none => Except.error PyErr.fileAccess

/-- Outcome of `TextProcessor.extract_text`, recording whether a file open
was attempted (either `fitz.open` or `Document`). -/
structure ExtractResult where
  result : Except PyErr String
  opened : Bool
deriving DecidableEq

/-- Embedding of `TextProcessor.extract_text` (text_processor.py): exact
string comparison of the extension against "pdf" and then "docx", and an
empty string for anything else without touching the file. -/
def extract_text (fs : FileSystem) (file_path file_extension : String) : ExtractResult :=
  if file_extension = "pdf" then
    ⟨(extract_text_from_pdf fs file_path).result, true⟩
  else if file_extension = "docx" then
    ⟨extract_text_from_docx fs file_path, true⟩
  else
    ⟨Except.ok "", false⟩

end TextProcessor

/-- A piece of a prompt template string, as `str.format` interprets it:
either literal text or a named placeholder written as the name between
braces. -/
inductive TplPart where
  | lit (s : String)
  | ph (name : String)
deriving DecidableEq

/-- A template is the sequence of its pieces. -/
def Template : Type := List TplPart

/-- The keyword arguments passed to `template.format(**kwargs)`: a finite
map from placeholder names to values, modelled as a function. -/
def Subs : Type := String → Option String

/-- Embedding of Python `template.format(**kwargs)`: substitute each
placeholder from the map, raising KeyError (spec taxonomy:
SubstitutionError) as soon as a referenced name is absent. -/
def formatTemplate : List TplPart → Subs → Except PyErr String
  | [], _ => Except.ok ""
  | TplPart.lit s :: rest, kwargs => (formatTemplate rest kwargs).map (fun r => s ++ r)
  | TplPart.ph n :: rest, kwargs =>
    match kwargs n with
    | none => Except.error PyErr.substitutionError
    | some v => (formatTemplate rest kwargs).map (fun r => v ++ r)

/-- One entry of the prompts JSON file: an object with a `template` field,
as accessed by `self.prompts[prompt_key]["template"]`. -/
structure PromptEntry where
  template : List TplPart
deriving DecidableEq

/-- The parsed content of the prompts JSON file: a map from prompt keys to
entries (JSON object keys are unique, so an association list looked up by
first match is faithful). -/
def PromptsData : Type := List (String × PromptEntry)

/-- Dictionary lookup `self.prompts[prompt_key]`, returning `none` where
Python raises KeyError. -/
def lookupKey (prompts : PromptsData) (prompt_key : String) : Option PromptEntry :=
  match prompts.find? (fun p => p.fst = prompt_key) with
  | some p => some p.snd
  | none => none

/-- Embedding of the `PromptLoader` object after construction: it holds the
loaded prompt map (`self.prompts`). -/
structure PromptLoader where
  prompts : PromptsData

namespace PromptLoader

/-- Embedding of `PromptLoader.__init__` together with `_load_prompts`
(prompt_loader.py): `open` on a missing prompts file raises (spec taxonomy:
ConfigError); otherwise the parsed JSON becomes `self.prompts`.
The file argument is the content of `prompts_file` on disk, `none` when the
file is missing. -/
def mk_loader (prompts_file : Option PromptsData) : Except PyErr PromptLoader :=
  match prompts_file with
  | none => Except.error PyErr.configError
  | some prompts => Except.ok ⟨prompts⟩

/-- Embedding of `PromptLoader.get_prompt` (prompt_loader.py):
`template = self.prompts[prompt_key]["template"]` raises KeyError (spec
taxonomy: TemplateNotFound) on an unknown key, then
`template.format(**kwargs)` substitutes the keyword arguments. -/
def get_prompt (loader : PromptLoader) (prompt_key : String) (kwargs : Subs) : Except PyErr String :=
  match lookupKey loader.prompts prompt_key with
  | none => Except.error PyErr.templateNotFound
  | some entry => formatTemplate entry.template kwargs

end PromptLoader

namespace Config

/-- Embedding of `Config.validate` (config.py): `if not Config.GROQ_API_KEY`
raises ValueError (spec taxonomy: ConfigError).  The environment variable is
`none` when unset; Python `not x` is true for `None` and for the empty
string. -/
def validate (groq_api_key : Option String) : Except PyErr Unit :=
  match groq_api_key with
  | none => Except.error PyErr.configError
  | some s => if s = "" then Except.error PyErr.configError else Except.ok ()

end Config

/-- One chat message of the Groq request. -/
structure Message where
  role : String
  content : String
deriving DecidableEq

/-- The request sent by `self.client.chat.completions.create`. -/
structure ChatRequest where
  messages : List Message
  model : String
  max_tokens : Nat
deriving DecidableEq

/-- One completion choice of the Groq response. -/
structure Choice where
  message : Message
deriving DecidableEq

/-- The Groq response: a list of completion choices. -/
structure ChatResponse where
  choices : List Choice
deriving DecidableEq

/-- The underlying transport: what the network and the hosted model do with
one request.  A failure is a network, authentication or API error (spec
taxonomy: InferenceError). -/
def Transport : Type := ChatRequest → Except PyErr ChatResponse

/-- Embedding of Python `str.strip()` with no argument: remove leading and
trailing whitespace characters. -/
def pyStrip (s : String) : String :=
  ⟨((s.data.dropWhile Char.isWhitespace).reverse.dropWhile Char.isWhitespace).reverse⟩

namespace GroqHandler

/-- Default value of the `model` parameter of `analyze_text`. -/
def defaultModel : String := "gemma2-9b-it"

/-- Default value of the `max_tokens` parameter of `analyze_text`. -/
def defaultMaxTokens : Nat := 2000

/-- The constructed Groq client state: it holds the API key taken from
`Config.GROQ_API_KEY`. -/
structure ClientState where
  api_key : String
deriving DecidableEq

/-- Outcome of `GroqHandler.__init__`, recording every transport invocation
made during construction. -/
structure InitResult where
  result : Except PyErr ClientState
  transportCalls : List ChatRequest
deriving DecidableEq

/-- Embedding of `GroqHandler.__init__` (groq_handler.py): first
`Config.validate()`, then `Groq(api_key=Config.GROQ_API_KEY)`, which only
constructs the client object — no request is sent, so the recorded
transport-call list is empty on every path. -/
def init_handler (groq_api_key : Option String) : InitResult :=
  match Config.validate groq_api_key with
  | Except.error e => ⟨Except.error e, []⟩
  | Except.ok _ => ⟨Except.ok ⟨groq_api_key.getD ""⟩, []⟩

/-- The request built by `analyze_text`: a single user-role message whose
content is `prompt + "\n\n" + text`, with the given model and token budget. -/
def buildRequest (prompt text model : String) (max_tokens : Nat) : ChatRequest :=
  ⟨[⟨"user", prompt ++ "\n\n" ++ text⟩], model, max_tokens⟩

/-- Embedding of `GroqHandler.analyze_text` (groq_handler.py): send the
built request through the transport and return
`response.choices[0].message.content.strip()`; indexing an empty choice
list raises IndexError. -/
def analyze_text (transport : Transport) (prompt text model : String) (max_tokens : Nat) : Except PyErr String :=
  match transport (buildRequest prompt text model max_tokens) with
  | Except.error e => Except.error e
  | Except.ok resp =>
    match resp.choices with
    | [] => Except.error PyErr.indexError
    | c :: _ => Except.ok (pyStrip c.message.content)

end GroqHandler

namespace ResumeAnalyzer

/-- The keyword arguments `designation=..., experience=..., domain=...`
passed by `analyze_resume` to `get_prompt`. -/
def kwargs (designation experience domain : String) : Subs :=
  fun n =>
    if n = "designation" then some designation
    else if n = "experience" then some experience
    else if n = "domain" then some domain
    else none

/-- Embedding of `ResumeAnalyzer.analyze_resume` (resume_analyzer.py):
resolve the "resume_analysis" template with the three parameters bound, then
`self.grok.analyze_text(prompt, text, max_tokens=1500)` — the `model`
parameter is left at its default. -/
def analyze_resume (transport : Transport) (loader : PromptLoader)
    (text designation experience domain : String) : Except PyErr String :=
  match loader.get_prompt "resume_analysis" (kwargs designation experience domain) with
  | Except.error e => Except.error e
  | Except.ok prompt =>
    GroqHandler.analyze_text transport prompt text GroqHandler.defaultModel 1500

end ResumeAnalyzer

namespace App

/-- What the handler renders to the user at the end of the request:
the analysis markdown, the "Could not extract text." message, or the
"Error processing resume: ..." message carrying the caught exception. -/
inductive Rendered where
  | analysis (s : String)
  | extractFailMsg
  | processErrorMsg (e : PyErr)
deriving DecidableEq

/-- Final state of one request through `main` (app.py): whether the
temporary file is still on disk and what was rendered. -/
structure Final where
  temp_exists : Bool
  rendered : Rendered
deriving DecidableEq

/-- Embedding of the request-processing part of `main` (app.py), from the
point where the uploaded bytes have been written to `temp_path`.  The two
fallible steps after the write are the extraction call and the analysis
(PromptLoader and GroqHandler construction plus `analyze_resume`), given
here by their outcomes.  The `try` body removes the temp file right after
extraction; the `except` handler logs, renders the error message and
removes the temp file only if it still exists. -/
def main (extractOutcome analyzeOutcome : Except PyErr String) : Final :=
  let temp0 := true
  match extractOutcome with
  | Except.error e =>
    ⟨if temp0 then false else temp0, Rendered.processErrorMsg e⟩
  | Except.ok extracted_text =>
    let temp1 := false
    if extracted_text ≠ "" then
      match analyzeOutcome with
      | Except.ok analysis => ⟨temp1, Rendered.analysis analysis⟩
      | Except.error e =>
        ⟨if temp1 then false else temp1, Rendered.processErrorMsg e⟩
    else
      ⟨temp1, Rendered.extractFailMsg⟩

end App

/-! Concrete sample data used to exercise the theorems on closed inputs. -/

/-- A sample file system holding a two-page PDF and a two-paragraph DOCX. -/
def fsSample : FileSystem := fun p =>
  if p = "resume.pdf" then some (Doc.pdf [some "Page1", some "Page2"])
  else if p = "resume.docx" then some (Doc.docx ["Para1", "Para2"])
  else none

/-- A file system holding a PDF whose second page read raises. -/
def fsLeak : FileSystem := fun p =>
  if p = "bad.pdf" then some (Doc.pdf [some "Page1", none]) else none

/-- A sample "resume_analysis" template referencing exactly the three
placeholders designation, experience and domain. -/
def sampleTemplate : List TplPart :=
  [TplPart.lit "Analyze for ", TplPart.ph "designation",
   TplPart.lit " with ", TplPart.ph "experience",
   TplPart.lit " in ", TplPart.ph "domain"]

/-- A sample prompts file content holding only the resume_analysis entry. -/
def samplePrompts : PromptsData := [("resume_analysis", ⟨sampleTemplate⟩)]

/-- A loader constructed from the sample prompts file. -/
def sampleLoader : PromptLoader := ⟨samplePrompts⟩

/-- A loader whose prompts file was an empty JSON object. -/
def emptyLoader : PromptLoader := ⟨[]⟩

/-- A stubbed transport that answers every request with one fixed completion
choice, padded with whitespace. -/
def echoTransport : Transport :=
  fun _ => Except.ok ⟨[⟨⟨"assistant", "  Summary: good resume.  "⟩⟩]⟩

/-- A stubbed transport that fails every request with an inference error. -/
def failTransport : Transport := fun _ => Except.error PyErr.inferenceError

/-- Keyword arguments that bind designation and experience but not domain. -/
def partialKwargs : Subs := fun n =>
  if n = "designation" then some "Data Scientist"
  else if n = "experience" then some "Fresher"
  else none

/-! Helper lemmas. -/

/-- Reading a list of pages all of whose reads return normally yields
exactly those page texts. -/
lemma readPages_map_some (pages : List String) : readPages (pages.map some) = some pages := by
  induction pages with
  | nil => rfl
  | cons t ts ih => simp [readPages, ih]

/-- If the template references a placeholder absent from the keyword
arguments, formatting raises the substitution error. -/
lemma formatTemplate_missing (tpl : List TplPart) (kw : Subs) (n : String)
    (hmem : TplPart.ph n ∈ tpl) (hmiss : kw n = none) :
    formatTemplate tpl kw = Except.error PyErr.substitutionError := by
  induction tpl with
  | nil => cases hmem
  | cons p rest ih =>
    cases p with
    | lit s =>
      have hrest : TplPart.ph n ∈ rest := by
        rcases List.mem_cons.mp hmem with h | h
        · exact absurd h (by simp)
        · exact h
      simp [formatTemplate, Except.map, ih hrest]
    | ph m =>
      rcases List.mem_cons.mp hmem with h | h
      · have hm : m = n := by
          cases h
          rfl
        subst hm
        simp [formatTemplate, hmiss]
      · cases hc : kw m with
        | none => simp [formatTemplate, hc]
        | some v => simp [formatTemplate, Except.map, hc, ih h]

/-- Formatting depends only on the values of the placeholders the template
references. -/
lemma formatTemplate_congr (tpl : List TplPart) (k1 k2 : Subs)
    (h : ∀ n, TplPart.ph n ∈ tpl → k2 n = k1 n) :
    formatTemplate tpl k2 = formatTemplate tpl k1 := by
  induction tpl with
  | nil => rfl
  | cons p rest ih =>
    cases p with
    | lit s =>
      simp [formatTemplate, ih (fun n hn => h n (List.mem_cons_of_mem _ hn))]
    | ph m =>
      have hm : k2 m = k1 m := h m (List.mem_cons_self _ _)
      simp [formatTemplate, hm, ih (fun n hn => h n (List.mem_cons_of_mem _ hn))]

/-! Claim theorems. -/

/-- C1: extract_text returns the newline-joined per-page text in page order
for extension "pdf", the newline-joined per-paragraph text in document
order for extension "docx", and exactly the empty string, without an error,
for any other extension. -/
theorem extract_text_dispatch (fs : FileSystem) (path ext : String)
    (pages paras : List String) :
    (fs path = some (Doc.pdf (pages.map some)) →
      (TextProcessor.extract_text fs path "pdf").result =
        Except.ok (String.intercalate "\n" pages))
    ∧ (fs path = some (Doc.docx paras) →
      (TextProcessor.extract_text fs path "docx").result =
        Except.ok (String.intercalate "\n" paras))
    ∧ (ext ≠ "pdf" → ext ≠ "docx" →
      (TextProcessor.extract_text fs path ext).result = Except.ok "") := by
  refine ⟨fun h => ?_, fun h => ?_, fun h1 h2 => ?_⟩
  · simp [TextProcessor.extract_text, TextProcessor.extract_text_from_pdf, h,
      readPages_map_some]
  · simp [TextProcessor.extract_text, TextProcessor.extract_text_from_docx, h]
  · simp [TextProcessor.extract_text, h1, h2]

/-- Witness for C1 on the sample file system. -/
theorem extract_text_dispatch_witness :
    (TextProcessor.extract_text fsSample "resume.pdf" "pdf").result =
      Except.ok "Page1\nPage2"
    ∧ (TextProcessor.extract_text fsSample "resume.docx" "docx").result =
      Except.ok "Para1\nPara2"
    ∧ (TextProcessor.extract_text fsSample "resume.txt" "txt").result = Except.ok "" := by
  refine ⟨?_, ?_, ?_⟩
  · rw [(extract_text_dispatch fsSample "resume.pdf" "txt" ["Page1", "Page2"] []).1 (by rfl)]
    rfl
  · rw [(extract_text_dispatch fsSample "resume.docx" "txt" [] ["Para1", "Para2"]).2.1 (by rfl)]
    rfl
  · exact (extract_text_dispatch fsSample "resume.txt" "txt" [] []).2.2 (by decide) (by decide)

/-- C9: extension dispatch is an exact, case-sensitive string match: any
extension other than the exact strings "pdf" and "docx" yields the empty
string and no file open is attempted. -/
theorem extract_text_exact_match (fs : FileSystem) (path ext : String)
    (h1 : ext ≠ "pdf") (h2 : ext ≠ "docx") :
    (TextProcessor.extract_text fs path ext).result = Except.ok ""
    ∧ (TextProcessor.extract_text fs path ext).opened = false := by
  constructor <;> simp [TextProcessor.extract_text, h1, h2]

/-- Witness for C9 at the variant spellings named by the claim, over a file
system where the path does hold a real document. -/
theorem extract_text_exact_match_witness :
    ((TextProcessor.extract_text fsSample "resume.pdf" "PDF").result = Except.ok ""
      ∧ (TextProcessor.extract_text fsSample "resume.pdf" "PDF").opened = false)
    ∧ ((TextProcessor.extract_text fsSample "resume.docx" "Docx").result = Except.ok ""
      ∧ (TextProcessor.extract_text fsSample "resume.docx" "Docx").opened = false)
    ∧ ((TextProcessor.extract_text fsSample "resume.pdf" ".pdf").result = Except.ok ""
      ∧ (TextProcessor.extract_text fsSample "resume.pdf" ".pdf").opened = false)
    ∧ ((TextProcessor.extract_text fsSample "resume.pdf" "pdf ").result = Except.ok ""
      ∧ (TextProcessor.extract_text fsSample "resume.pdf" "pdf ").opened = false) :=
  ⟨extract_text_exact_match fsSample "resume.pdf" "PDF" (by decide) (by decide),
   extract_text_exact_match fsSample "resume.docx" "Docx" (by decide) (by decide),
   extract_text_exact_match fsSample "resume.pdf" ".pdf" (by decide) (by decide),
   extract_text_exact_match fsSample "resume.pdf" "pdf " (by decide) (by decide)⟩

/-- C5 counterexample: on a PDF whose second page read raises, the open
succeeds but `doc.close()` is never executed — the close sits after the
page-reading comprehension with no try/finally, so the claim that the
document is released on every execution path is false. -/
theorem pdf_close_counterexample :
    fsLeak "bad.pdf" = some (Doc.pdf [some "Page1", none])
    ∧ (TextProcessor.extract_text_from_pdf fsLeak "bad.pdf").result =
        Except.error PyErr.parseError
    ∧ (TextProcessor.extract_text_from_pdf fsLeak "bad.pdf").closed = false :=
  ⟨rfl, rfl, rfl⟩

/-- C5 amended: for an opened PDF document, `doc.close()` runs exactly when
every page read returns normally; when a page read raises, the error
propagates with the document left open. -/
theorem pdf_close_iff_pages_ok (fs : FileSystem) (path : String)
    (pages : List (Option String)) (h : fs path = some (Doc.pdf pages)) :
    (TextProcessor.extract_text_from_pdf fs path).closed = true ↔
      (readPages pages).isSome = true := by
  rcases hr : readPages pages with _ | texts <;>
    simp [TextProcessor.extract_text_from_pdf, h, hr]

/-- Witness for the amended C5 on the sample PDF, all of whose page reads
return normally. -/
theorem pdf_close_iff_pages_ok_witness :
    (TextProcessor.extract_text_from_pdf fsSample "resume.pdf").closed = true :=
  (pdf_close_iff_pages_ok fsSample "resume.pdf" [some "Page1", some "Page2"]
    (by rfl)).mpr (by decide)

/-- C6: get_prompt on a key absent from the loaded template map raises
TemplateNotFound and never returns a default, and loading templates from a
missing prompts file raises ConfigError at construction. -/
theorem get_prompt_unknown_key (loader : PromptLoader) (key : String) (kw : Subs)
    (h : lookupKey loader.prompts key = none) :
    PromptLoader.get_prompt loader key kw = Except.error PyErr.templateNotFound
    ∧ PromptLoader.mk_loader none = Except.error PyErr.configError := by
  constructor
  · simp [PromptLoader.get_prompt, h]
  · rfl

/-- Witness for C6 on the sample loader at an unknown key. -/
theorem get_prompt_unknown_key_witness :
    PromptLoader.get_prompt sampleLoader "unknown" (fun _ => none) =
      Except.error PyErr.templateNotFound
    ∧ PromptLoader.mk_loader none = Except.error PyErr.configError :=
  get_prompt_unknown_key sampleLoader "unknown" (fun _ => none) (by decide)

/-- C7: if the resolved template references a placeholder whose name the
keyword arguments do not bind, get_prompt raises the substitution error
rather than returning a string with the placeholder left unresolved. -/
theorem get_prompt_missing_placeholder (loader : PromptLoader) (key : String)
    (entry : PromptEntry) (kw : Subs) (n : String)
    (hkey : lookupKey loader.prompts key = some entry)
    (hmem : TplPart.ph n ∈ entry.template) (hmiss : kw n = none) :
    PromptLoader.get_prompt loader key kw = Except.error PyErr.substitutionError := by
  simp [PromptLoader.get_prompt, hkey,
    formatTemplate_missing entry.template kw n hmem hmiss]

/-- Witness for C7: the sample template references domain, which the
partial keyword arguments do not bind. -/
theorem get_prompt_missing_placeholder_witness :
    PromptLoader.get_prompt sampleLoader "resume_analysis" partialKwargs =
      Except.error PyErr.substitutionError :=
  get_prompt_missing_placeholder sampleLoader "resume_analysis" ⟨sampleTemplate⟩
    partialKwargs "domain" (by decide) (by decide) (by rfl)

/-- C10: the result of get_prompt depends only on the values bound to the
placeholders the resolved template references; keyword arguments for names
the template does not reference are silently ignored. -/
theorem get_prompt_extra_keys_ignored (loader : PromptLoader) (key : String)
    (entry : PromptEntry) (k1 k2 : Subs)
    (hkey : lookupKey loader.prompts key = some entry)
    (hagree : ∀ n, TplPart.ph n ∈ entry.template → k2 n = k1 n) :
    PromptLoader.get_prompt loader key k2 = PromptLoader.get_prompt loader key k1 := by
  simp [PromptLoader.get_prompt, hkey, formatTemplate_congr entry.template k1 k2 hagree]

/-- Witness for C10: adding an unreferenced binding for the name extra to
the three referenced bindings leaves the sample prompt unchanged. -/
theorem get_prompt_extra_keys_ignored_witness :
    PromptLoader.get_prompt sampleLoader "resume_analysis"
        (fun n => if n = "extra" then some "ignored"
          else ResumeAnalyzer.kwargs "Data Scientist" "Fresher" "Finance" n) =
      PromptLoader.get_prompt sampleLoader "resume_analysis"
        (ResumeAnalyzer.kwargs "Data Scientist" "Fresher" "Finance") := by
  exact get_prompt_extra_keys_ignored sampleLoader "resume_analysis" ⟨sampleTemplate⟩
    (ResumeAnalyzer.kwargs "Data Scientist" "Fresher" "Finance")
    (fun n => if n = "extra" then some "ignored"
      else ResumeAnalyzer.kwargs "Data Scientist" "Fresher" "Finance" n)
    (by decide) (by
      intro n hn
      simp [sampleTemplate] at hn
      rcases hn with h | h | h <;> subst h <;> rfl)

/-- C2: analyze_resume is exactly the composition of get_prompt on the
resume_analysis key with the three parameters bound and analyze_text at
token budget 1500 and the default model "gemma2-9b-it"; an error from
get_prompt propagates unchanged, and so does an error from analyze_text. -/
theorem analyze_resume_delegates (transport : Transport) (loader : PromptLoader)
    (text designation experience domain : String) :
    (ResumeAnalyzer.analyze_resume transport loader text designation experience domain =
      match loader.get_prompt "resume_analysis"
          (ResumeAnalyzer.kwargs designation experience domain) with
      | Except.error e => Except.error e
      | Except.ok prompt => GroqHandler.analyze_text transport prompt text "gemma2-9b-it" 1500)
    ∧ (∀ e, loader.get_prompt "resume_analysis"
          (ResumeAnalyzer.kwargs designation experience domain) = Except.error e →
        ResumeAnalyzer.analyze_resume transport loader text designation experience domain =
          Except.error e)
    ∧ (∀ prompt e, loader.get_prompt "resume_analysis"
          (ResumeAnalyzer.kwargs designation experience domain) = Except.ok prompt →
        GroqHandler.analyze_text transport prompt text "gemma2-9b-it" 1500 =
          Except.error e →
        ResumeAnalyzer.analyze_resume transport loader text designation experience domain =
          Except.error e) := by
  refine ⟨rfl, fun e h => ?_, fun prompt e hp ha => ?_⟩
  · simp [ResumeAnalyzer.analyze_resume, h]
  · simp [ResumeAnalyzer.analyze_resume, GroqHandler.defaultModel, hp, ha]

/-- Witness for C2: the stubbed echo transport yields the stripped stubbed
completion, a loader without the key propagates TemplateNotFound, and a
failing transport propagates InferenceError. -/
theorem analyze_resume_delegates_witness :
    ResumeAnalyzer.analyze_resume echoTransport sampleLoader "resume text"
      "Data Analyst" "1-2 Years Experience" "Healthcare" =
      Except.ok "Summary: good resume."
    ∧ ResumeAnalyzer.analyze_resume echoTransport emptyLoader "t" "d" "e" "dm" =
      Except.error PyErr.templateNotFound
    ∧ ResumeAnalyzer.analyze_resume failTransport sampleLoader "t" "d" "e" "dm" =
      Except.error PyErr.inferenceError := by
  refine ⟨?_, ?_, ?_⟩
  · rw [(analyze_resume_delegates echoTransport sampleLoader "resume text"
      "Data Analyst" "1-2 Years Experience" "Healthcare").1]
    decide
  · exact (analyze_resume_delegates echoTransport emptyLoader "t" "d" "e" "dm").2.1
      PyErr.templateNotFound (by decide)
  · exact (analyze_resume_delegates failTransport sampleLoader "t" "d" "e" "dm").2.2
      "Analyze for d with e in dm" PyErr.inferenceError (by decide) (by decide)

/-- C3: analyze_text sends exactly one user-role message whose content is
the prompt, a blank-line separator of two newlines, and the text; on a
successful response it returns the first completion choice message content
with leading and trailing whitespace removed. -/
theorem analyze_text_request_shape (transport : Transport)
    (prompt text model : String) (max_tokens : Nat) :
    (GroqHandler.buildRequest prompt text model max_tokens).messages =
      [⟨"user", prompt ++ "\n\n" ++ text⟩]
    ∧ (∀ resp c rest,
        transport (GroqHandler.buildRequest prompt text model max_tokens) =
          Except.ok resp →
        resp.choices = c :: rest →
        GroqHandler.analyze_text transport prompt text model max_tokens =
          Except.ok (pyStrip c.message.content)) := by
  refine ⟨rfl, fun resp c rest h hc => ?_⟩
  simp [GroqHandler.analyze_text, h, hc]

/-- Witness for C3 on the echo transport: the request carries the single
concatenated user message and the padded stub completion comes back
stripped. -/
theorem analyze_text_request_shape_witness :
    (GroqHandler.buildRequest "p" "t" "gemma2-9b-it" 2000).messages =
      [⟨"user", "p\n\nt"⟩]
    ∧ GroqHandler.analyze_text echoTransport "p" "t" "gemma2-9b-it" 2000 =
      Except.ok "Summary: good resume." := by
  constructor
  · exact (analyze_text_request_shape echoTransport "p" "t" "gemma2-9b-it" 2000).1
  · rw [(analyze_text_request_shape echoTransport "p" "t" "gemma2-9b-it" 2000).2
      ⟨[⟨⟨"assistant", "  Summary: good resume.  "⟩⟩]⟩
      ⟨⟨"assistant", "  Summary: good resume.  "⟩⟩ [] (by decide) (by decide)]
    decide

/-- C4: with an absent or empty API-key credential, constructing the
handler fails with the configuration error and the recorded list of
transport invocations is empty — the check happens eagerly at construction,
before any network call. -/
theorem init_handler_config_check (groq_api_key : Option String)
    (h : groq_api_key = none ∨ groq_api_key = some "") :
    (GroqHandler.init_handler groq_api_key).result = Except.error PyErr.configError
    ∧ (GroqHandler.init_handler groq_api_key).transportCalls = [] := by
  rcases h with h | h <;> subst h <;> exact ⟨rfl, rfl⟩

/-- Witness for C4 at both an absent and an empty credential. -/
theorem init_handler_config_check_witness :
    ((GroqHandler.init_handler none).result = Except.error PyErr.configError
      ∧ (GroqHandler.init_handler none).transportCalls = [])
    ∧ ((GroqHandler.init_handler (some "")).result = Except.error PyErr.configError
      ∧ (GroqHandler.init_handler (some "")).transportCalls = []) :=
  ⟨init_handler_config_check none (Or.inl rfl),
   init_handler_config_check (some "") (Or.inr rfl)⟩

/-- C8: whenever a step after the temporary file was written raises — the
extraction call, or the analysis on a nonempty extracted text — the handler
renders the user-facing error message and the temporary file is no longer
on disk afterwards. -/
theorem main_error_path_cleanup (extractOutcome analyzeOutcome : Except PyErr String)
    (e : PyErr)
    (h : extractOutcome = Except.error e ∨
      (∃ t, extractOutcome = Except.ok t ∧ t ≠ "" ∧ analyzeOutcome = Except.error e)) :
    (App.main extractOutcome analyzeOutcome).temp_exists = false
    ∧ (App.main extractOutcome analyzeOutcome).rendered =
        App.Rendered.processErrorMsg e := by
  rcases h with h | ⟨t, ht, hne, ha⟩
  · subst h
    exact ⟨rfl, rfl⟩
  · subst ht
    subst ha
    constructor <;> simp [App.main, hne]

/-- Witness for C8: a failing extraction, and a failing analysis after a
nonempty extraction, both end with the error message rendered and no
temporary file on disk. -/
theorem main_error_path_cleanup_witness :
    ((App.main (Except.error PyErr.fileAccess) (Except.ok "a")).temp_exists = false
      ∧ (App.main (Except.error PyErr.fileAccess) (Except.ok "a")).rendered =
          App.Rendered.processErrorMsg PyErr.fileAccess)
    ∧ ((App.main (Except.ok "text") (Except.error PyErr.inferenceError)).temp_exists = false
      ∧ (App.main (Except.ok "text") (Except.error PyErr.inferenceError)).rendered =
          App.Rendered.processErrorMsg PyErr.inferenceError) :=
  ⟨main_error_path_cleanup (Except.error PyErr.fileAccess) (Except.ok "a")
      PyErr.fileAccess (Or.inl rfl),
   main_error_path_cleanup (Except.ok "text") (Except.error PyErr.inferenceError)
      PyErr.inferenceError (Or.inr ⟨"text", rfl, by decide, rfl⟩)⟩

end ResumeAnalyzerSpec
